import Mathlib

/-!
# Verification of the PDF document-processing pipeline

A shallow embedding of the `ai-service` backend: the upload orchestrator
(`app/api/routes/documents.py`), the PDF text extractor
(`app/services/pdf_extractor.py`) and the AI processor
(`app/services/ai_processor.py`).  Python strings are modelled as `List Char`;
effectful steps (object storage, the PDF library, the LLM backend, `json.loads`)
are modelled by environments recording the outcome of each external call, and
the Python control flow (try/except/finally, early returns) is translated into
total functions over those environments.
-/

set_option maxHeartbeats 1000000

namespace Pipeline

/-- Python strings, modelled as lists of characters. -/
abbrev PyStr := List Char

/-- The whitespace characters stripped by Python's `str.strip()`
(the ASCII ones; the pipeline never manipulates exotic Unicode whitespace). -/
def isPySpace (c : Char) : Bool :=
  c = ' ' || c = '\t' || c = '\n' || c = '\r' || c = '\x0b' || c = '\x0c'

/-- Python `str.lstrip()`. -/
def pyLstrip (s : PyStr) : PyStr := s.dropWhile isPySpace

/-- Python `str.rstrip()`. -/
def pyRstrip (s : PyStr) : PyStr := (s.reverse.dropWhile isPySpace).reverse

/-- Python `str.strip()`: remove whitespace from both ends. -/
def pyStrip (s : PyStr) : PyStr := pyRstrip (pyLstrip s)

/-- Python `str.lower()` (ASCII case folding, which is all the pipeline uses). -/
def pyLower (s : PyStr) : PyStr := s.map Char.toLower

/-- JSON values, the shape of `json.loads` output and of the
`ai_structured_output` field. -/
inductive Json where
  | null : Json
  | bool (b : Bool) : Json
  | num (n : Int) : Json
  | str (s : PyStr) : Json
  | arr (elems : List Json) : Json
  | obj (fields : List (PyStr × Json)) : Json

/-- Outcome of a call to `json.loads` on a string: a parsed value, a
`json.JSONDecodeError` (carrying its message), or any other exception. -/
inductive ParseOutcome where
  | ok (v : Json) : ParseOutcome
  | decodeError (msg : PyStr) : ParseOutcome
  | otherError (msg : PyStr) : ParseOutcome

/-- The configuration surface used by the pipeline
(`app/core/config.py`: `ALLOWED_EXTENSIONS`, `MAX_UPLOAD_SIZE`,
`AI_MODEL_NAME`). -/
structure Config where
  allowedExtensions : List PyStr
  maxUploadSize : Nat
  aiModelName : PyStr

/-- The uniform outbound response shape (`AIProcessingResponse`), constructed
by the handler and by `process_content`: `document_id`, `status`
(`success`/`error`), optional `ai_structured_output`, `model_used`,
optional `error_message`.  Document ids are abstracted as naturals. -/
structure AIProcessingResponse where
  document_id : Nat
  status : PyStr
  ai_structured_output : Option Json := none
  model_used : PyStr
  error_message : Option PyStr := none

/-- Outcome of `self.llm.invoke(messages)` in `process_content`: either the
invocation raises, or it returns a completion text. -/
inductive LlmOutcome where
  | raises (msg : PyStr) : LlmOutcome
  | completes (text : PyStr) : LlmOutcome

/-- Model of `AIProcessorService._clean_json_string`: strip surrounding whitespace,
strip one leading ```` ```json ```` (else one bare ```` ``` ````) fence, then
strip one trailing ```` ``` ```` fence, re-stripping whitespace after each
removal. -/
def cleanJsonString (raw : PyStr) : PyStr :=
  let cleaned := pyStrip raw
  let cleaned :=
    if "```json".toList.isPrefixOf cleaned then pyStrip (cleaned.drop 7)
    else if "```".toList.isPrefixOf cleaned then pyStrip (cleaned.drop 3)
    else cleaned
  if "```".toList.isSuffixOf cleaned then pyStrip (cleaned.take (cleaned.length - 3))
  else cleaned

/-- Model of `AIProcessorService.process_content`: invoke the LLM (an invocation
failure yields a `status=error` response), strip the completion, clean the
fences, parse with `json.loads` (`jsonLoads` models the library call) and
build the response.  `model_used` is set to the configured model name in every
branch. -/
def processContent (cfg : Config) (docId : Nat)
    (llm : LlmOutcome) (jsonLoads : PyStr → ParseOutcome) : AIProcessingResponse :=
  match llm with
  | .raises e =>
      { document_id := docId
        status := "error".toList
        model_used := cfg.aiModelName
        error_message := some ("Failed to get response from AI model: ".toList ++ e) }
  | .completes content =>
      let rawAiOutput := pyStrip content
      let cleaned := cleanJsonString rawAiOutput
      match jsonLoads cleaned with
      | .ok v =>
          { document_id := docId
            status := "success".toList
            ai_structured_output := some v
            model_used := cfg.aiModelName
            error_message := none }
      | .decodeError e =>
          { document_id := docId
            status := "error".toList
            ai_structured_output := none
            model_used := cfg.aiModelName
            error_message := some ("AI model response was not valid JSON. Parse Error: ".toList
              ++ e ++ ". Raw (cleaned) start: '".toList ++ cleaned.take 100 ++ "...'".toList) }
      | .otherError e =>
          { document_id := docId
            status := "error".toList
            ai_structured_output := none
            model_used := cfg.aiModelName
            error_message := some ("Unexpected error parsing AI output: ".toList ++ e) }

/-! ## PDF text extractor (`app/services/pdf_extractor.py`) -/

/-- Outcome of the MinIO fetch in `extract_text_from_pdf`: either
`get_object` returns a response handle and `response.read()` yields bytes (or
raises), or `get_object` itself raises an `S3Error` (carrying its code), a
`MinioException` (connection error), or some other exception.  Object bytes
are abstracted as `List Nat`. -/
inductive FetchOutcome where
  | got (readResult : Except PyStr (List Nat)) : FetchOutcome
  | s3Error (code : PyStr) : FetchOutcome
  | minioError (msg : PyStr) : FetchOutcome
  | raises (msg : PyStr) : FetchOutcome

/-- Result of the encryption check on a parsed PDF: not encrypted,
`decrypt('')` succeeds (truthy), `decrypt('')` fails (falsy), or the
encryption scheme raises `NotImplementedError`. -/
inductive EncryptionCheck where
  | notEncrypted : EncryptionCheck
  | decryptsOk : EncryptionCheck
  | decryptFails : EncryptionCheck
  | unsupported : EncryptionCheck

/-- Outcome of `PdfReader` on the fetched bytes: a parsed document with its
encryption state and the per-page outcome of `page.extract_text()` (a page
either raises or returns its text), a `PdfReadError`, or any other
exception. -/
inductive PdfParseOutcome where
  | parsed (enc : EncryptionCheck) (pages : List (Except PyStr PyStr)) : PdfParseOutcome
  | readError (msg : PyStr) : PdfParseOutcome
  | raises (msg : PyStr) : PdfParseOutcome

/-- Environment describing the external-call outcomes of one run of
`extract_text_from_pdf`. -/
structure ExtractEnv where
  fetchOutcome : FetchOutcome
  parseOutcome : PdfParseOutcome

/-- Exceptions that can escape the extraction step, as seen by the
orchestrator: `PdfNotFoundError`, `PdfExtractionError`, an `HTTPException`
with a status code and detail, or any other unexpected exception (the
handler's final `except Exception`; `extract_text_from_pdf` itself only
raises the first three). -/
inductive ExtractErr where
  | notFound (msg : PyStr) : ExtractErr
  | extractionError (msg : PyStr) : ExtractErr
  | httpError (statusCode : Nat) (detail : PyStr) : ExtractErr
  | raises (msg : PyStr) : ExtractErr

/-- One run of the extraction step: its result (text or exception) plus
whether a storage response handle was acquired and whether it was closed and
its connection released (the `finally` block). -/
structure ExtractRun where
  result : Except ExtractErr PyStr
  handleAcquired : Bool
  handleReleased : Bool

/-- The per-page loop of `extract_text_from_pdf`: a page whose extraction
raises is logged and skipped; a page whose text is truthy (non-empty)
contributes its stripped text. -/
def pageContributions (pages : List (Except PyStr PyStr)) : List PyStr :=
  pages.filterMap fun p =>
    match p with
    | .error _ => none
    | .ok t => if t = [] then none else some (pyStrip t)

/-- Model of `PdfExtractorService.extract_text_from_pdf`, translated from source.
Fetch the object (mapping `S3Error` code `NoSuchKey` to `PdfNotFoundError`,
other `S3Error`s to HTTP 500, `MinioException` to HTTP 503, anything else to
HTTP 500; the `finally` block releases the handle whenever `get_object`
returned one); reject empty bytes; parse the PDF (an encryption failure or
any unexpected exception inside the parse `try` is re-wrapped by the outer
`except Exception` into an "Unexpected error processing PDF" extraction
error); iterate the pages and join the non-empty stripped page texts with a
blank line; return the empty string when nothing was extracted. -/
def extractTextFromPdf (bucket objectName : PyStr) (env : ExtractEnv) : ExtractRun :=
  match env.fetchOutcome with
  | .s3Error code =>
      if code = "NoSuchKey".toList then
        ⟨.error (.notFound ("PDF object '".toList ++ objectName ++ "' not found in bucket '".toList
          ++ bucket ++ "'.".toList)), false, false⟩
      else
        ⟨.error (.httpError 500 ("Storage error retrieving PDF: ".toList ++ code)), false, false⟩
  | .minioError msg =>
      ⟨.error (.httpError 503 ("Storage service connection error: ".toList ++ msg)), false, false⟩
  | .raises _ =>
      ⟨.error (.httpError 500 "Unexpected error retrieving PDF file.".toList), false, false⟩
  | .got readResult =>
      match readResult with
      | .error _ =>
          ⟨.error (.httpError 500 "Unexpected error retrieving PDF file.".toList), true, true⟩
      | .ok pdfData =>
          if pdfData = [] then
            ⟨.error (.extractionError ("Failed to retrieve valid data for PDF '".toList
              ++ objectName ++ "'.".toList)), true, true⟩
          else
            match env.parseOutcome with
            | .readError e =>
                ⟨.error (.extractionError ("Failed to read PDF '".toList ++ objectName
                  ++ "'. It might be corrupted or not a valid PDF. Error: ".toList ++ e)),
                  true, true⟩
            | .raises e =>
                ⟨.error (.extractionError ("Unexpected error processing PDF '".toList
                  ++ objectName ++ "': ".toList ++ e)), true, true⟩
            | .parsed enc pages =>
                match enc with
                | .decryptFails =>
                    ⟨.error (.extractionError ("Unexpected error processing PDF '".toList
                      ++ objectName ++ "': PDF '".toList ++ objectName
                      ++ "' is encrypted and password protected.".toList)), true, true⟩
                | .unsupported =>
                    ⟨.error (.extractionError ("Unexpected error processing PDF '".toList
                      ++ objectName ++ "': PDF '".toList ++ objectName
                      ++ "' uses unsupported encryption.".toList)), true, true⟩
                | .notEncrypted =>
                    let texts := pageContributions pages
                    if texts = [] then ⟨.ok [], true, true⟩
                    else ⟨.ok (List.intercalate "\n\n".toList texts), true, true⟩
                | .decryptsOk =>
                    let texts := pageContributions pages
                    if texts = [] then ⟨.ok [], true, true⟩
                    else ⟨.ok (List.intercalate "\n\n".toList texts), true, true⟩

/-! ## Upload orchestrator (`app/api/routes/documents.py`) -/

/-- Outcome of `storage_service.store_file`: the returned storage location,
an `HTTPException` (the adapter's wrapping of `MinioException`), or any other
exception. -/
inductive StoreOutcome where
  | stored (location : PyStr) : StoreOutcome
  | httpError (detail : PyStr) : StoreOutcome
  | raises (msg : PyStr) : StoreOutcome

/-- Outcome of the `ai_processor_service.process_content(...)` call as seen
by the handler's `try`: it runs (producing a response), raises
`AIConfigurationError`, or raises some other exception. -/
inductive AiCallOutcome where
  | runs : AiCallOutcome
  | raisesConfig (msg : PyStr) : AiCallOutcome
  | raisesOther (msg : PyStr) : AiCallOutcome

/-- Environment describing the request and the external-call outcomes of one
run of `upload_document_and_process`.  `parseUuid` models `UUID(...)` on the
object-name stem (`none` = `ValueError`); `tempId` is the generated
`uuid.uuid4()`. -/
structure UploadEnv where
  filename : Option PyStr
  readOutcome : Except PyStr Nat
  seekOutcome : Option PyStr
  tempId : Nat
  storeOutcome : StoreOutcome
  parseUuid : PyStr → Option Nat
  extractOutcome : Except ExtractErr PyStr
  aiAvailable : Bool
  aiCallOutcome : AiCallOutcome
  llmOutcome : LlmOutcome
  jsonLoads : PyStr → ParseOutcome

/-- One run of the handler: the response it returns plus which pipeline
stages were actually invoked. -/
structure RunResult where
  response : AIProcessingResponse
  storeCalled : Bool
  extractCalled : Bool
  aiInvoked : Bool

/-- The handler's file-type gate: a missing or empty filename fails the
check; otherwise the lowercased filename must end in a dot followed by one of
the allowed extensions (the endswith test against the tuple of allowed
suffixes). -/
def filenameAllowed (exts : List PyStr) (filename : Option PyStr) : Bool :=
  match filename with
  | none => false
  | some f =>
      !(f = []) && exts.any fun ext => ('.' :: ext).isSuffixOf (pyLower f)

/-- Python `os.path.basename`: the part after the last slash. -/
def basename (p : PyStr) : PyStr := (p.reverse.takeWhile (fun c => !(c = '/'))).reverse

/-- An error response as built throughout the handler: `status="error"`, the
given message, the configured model name. -/
def errResp (docId : Nat) (cfg : Config) (msg : PyStr) : AIProcessingResponse :=
  { document_id := docId
    status := "error".toList
    model_used := cfg.aiModelName
    error_message := some msg }

/-- Model of `upload_document_and_process`, translated from source: validate the file
type, read and size-check the payload (resetting the read position), store
the file (deriving the reported document id from the stored object name, with
fallback to the generated id), extract the text (each exception class mapped
to its own `status=error` response), short-circuit to a fixed informational
`status=success` response when no text was extracted, check AI availability,
and delegate to `process_content`.  Every failure is returned as a normal
response; nothing propagates. -/
def uploadDocumentAndProcess (cfg : Config) (env : UploadEnv) : RunResult :=
  if !filenameAllowed cfg.allowedExtensions env.filename then
    ⟨errResp env.tempId cfg ("Invalid file type. Only ".toList
      ++ List.intercalate ", ".toList cfg.allowedExtensions
      ++ " files are allowed.".toList), false, false, false⟩
  else
    match env.readOutcome with
    | .error e =>
        ⟨errResp env.tempId cfg ("Error reading uploaded file: ".toList ++ e),
          false, false, false⟩
    | .ok fileSize =>
        if fileSize > cfg.maxUploadSize then
          ⟨errResp env.tempId cfg ("File size exceeds maximum allowed (".toList
            ++ Nat.toDigits 10 (cfg.maxUploadSize / (1024 * 1024)) ++ "MB).".toList),
            false, false, false⟩
        else
          match env.seekOutcome with
          | some e =>
              ⟨errResp env.tempId cfg ("Error reading uploaded file: ".toList ++ e),
                false, false, false⟩
          | none =>
              match env.storeOutcome with
              | .httpError detail =>
                  ⟨errResp env.tempId cfg ("Storage Error: ".toList ++ detail),
                    true, false, false⟩
              | .raises msg =>
                  ⟨errResp env.tempId cfg ("Unexpected error storing document: ".toList ++ msg),
                    true, false, false⟩
              | .stored location =>
                  if location = [] then
                    ⟨errResp env.tempId cfg ("Unexpected error storing document: ".toList
                      ++ "Storage service did not return a valid location.".toList),
                      true, false, false⟩
                  else
                    let objectName := basename location
                    let finalId :=
                      (env.parseUuid (objectName.takeWhile (fun c => !(c = '.')))).getD env.tempId
                    if objectName = [] then
                      ⟨errResp finalId cfg
                        "Internal error: Storage location missing after successful upload.".toList,
                        true, false, false⟩
                    else
                      match env.extractOutcome with
                      | .error (.notFound m) =>
                          ⟨errResp finalId cfg
                            ("Failed to find stored PDF for extraction: ".toList ++ m),
                            true, true, false⟩
                      | .error (.extractionError m) =>
                          ⟨errResp finalId cfg
                            ("Failed to extract text from PDF: ".toList ++ m),
                            true, true, false⟩
                      | .error (.httpError _ detail) =>
                          ⟨errResp finalId cfg
                            ("Storage error during extraction: ".toList ++ detail),
                            true, true, false⟩
                      | .error (.raises m) =>
                          ⟨errResp finalId cfg
                            ("Unexpected error during text extraction: ".toList ++ m),
                            true, true, false⟩
                      | .ok extractedText =>
                          if extractedText = [] then
                            ⟨{ document_id := finalId
                               status := "success".toList
                               ai_structured_output := some (.obj [("message".toList,
                                 .str "No text content could be extracted from the PDF.".toList)])
                               model_used := cfg.aiModelName
                               error_message :=
                                 some "PDF contained no extractable text content.".toList },
                              true, true, false⟩
                          else
                            if !env.aiAvailable then
                              ⟨errResp finalId cfg
                                ("AI processing service is not available ".toList
                                  ++ "(configuration error?). Check server logs.".toList),
                                true, true, false⟩
                            else
                              match env.aiCallOutcome with
                              | .raisesConfig m =>
                                  ⟨errResp finalId cfg
                                    ("AI Service configuration error: ".toList ++ m),
                                    true, true, true⟩
                              | .raisesOther m =>
                                  ⟨errResp finalId cfg
                                    ("Unexpected error calling AI processing service: ".toList
                                      ++ m),
                                    true, true, true⟩
                              | .runs =>
                                  ⟨processContent cfg finalId env.llmOutcome env.jsonLoads,
                                    true, true, true⟩

/-! ## Auxiliary definitions used in claim statements -/

/-- The `ai_structured_output` determined directly by a `json.loads` outcome:
the parsed value on success, absent otherwise. -/
def structuredOutputOf : ParseOutcome → Option Json
  | .ok v => some v
  | .decodeError _ => none
  | .otherError _ => none

/-- The environments on which `upload_document_and_process` runs to
completion with a `status=success` response: validation passes, the payload
reads within the size limit, the seek succeeds, storage returns a usable
location, extraction succeeds, and either the text is empty (the
informational short-circuit) or the AI stage runs and its completion parses
as JSON. -/
def ReachesSuccess (cfg : Config) (env : UploadEnv) : Prop :=
  filenameAllowed cfg.allowedExtensions env.filename = true ∧
  (∃ n, env.readOutcome = .ok n ∧ ¬n > cfg.maxUploadSize) ∧
  env.seekOutcome = none ∧
  (∃ loc, env.storeOutcome = .stored loc ∧ loc ≠ [] ∧ basename loc ≠ []) ∧
  (∃ t, env.extractOutcome = .ok t ∧
    (t = [] ∨
      (env.aiAvailable = true ∧ env.aiCallOutcome = .runs ∧
        ∃ raw v, env.llmOutcome = .completes raw ∧
          env.jsonLoads (cleanJsonString (pyStrip raw)) = .ok v)))

/-- The page-joining rule exactly as the specification words it: the
non-empty page texts, in page order, joined by a blank line (no stripping of
the individual page texts).  Used to compare the specified join against the
implemented one. -/
def specNonEmptyJoin (pages : List (Except PyStr PyStr)) : PyStr :=
  List.intercalate "\n\n".toList ((pages.filterMap Except.toOption).filter (fun t => !t.isEmpty))

/-- A sample `json.loads` model used by concrete witnesses: accepts exactly
the literal `null` (modulo surrounding whitespace, which Python's parser
ignores), rejects everything else with a decode error. -/
def sampleLoads : PyStr → ParseOutcome := fun t =>
  if pyStrip t = "null".toList then .ok .null
  else .decodeError "Expecting value: line 1 column 1 (char 0)".toList

/-- A sample configuration mirroring the defaults in `app/core/config.py`. -/
def sampleCfg : Config :=
  { allowedExtensions := ["pdf".toList]
    maxUploadSize := 10 * 1024 * 1024
    aiModelName := "gemini-2.0-flash".toList }

/-- A sample environment in which every stage succeeds but the extracted
text is empty: used to witness the empty-extraction short-circuit. -/
def emptyTextEnv : UploadEnv :=
  { filename := some "a.pdf".toList
    readOutcome := .ok 3
    seekOutcome := none
    tempId := 0
    storeOutcome := .stored "pdfs/f.pdf".toList
    parseUuid := fun _ => none
    extractOutcome := .ok []
    aiAvailable := true
    aiCallOutcome := .runs
    llmOutcome := .completes "null".toList
    jsonLoads := sampleLoads }

/-- A sample environment whose upload has a disallowed extension. -/
def invalidExtEnv : UploadEnv :=
  { emptyTextEnv with filename := some "doc.txt".toList }

/-- A sample environment whose payload exceeds the size limit. -/
def oversizeEnv : UploadEnv :=
  { emptyTextEnv with readOutcome := .ok (sampleCfg.maxUploadSize + 1) }

/-- A sample environment whose upload carries no filename. -/
def noFilenameEnv : UploadEnv :=
  { emptyTextEnv with filename := none }

/-! ## Lemmas about the Python string primitives -/

theorem dropWhile_append_of_all {p : Char → Bool} {l₁ l₂ : List Char}
    (h : ∀ a ∈ l₁, p a) : (l₁ ++ l₂).dropWhile p = l₂.dropWhile p := by
  induction l₁ with
  | nil => rfl
  | cons a t ih =>
      rw [List.cons_append, List.dropWhile_cons_of_pos (h a (by simp))]
      exact ih fun x hx => h x (by simp [hx])

theorem dropWhile_dropWhile (p : Char → Bool) (l : List Char) :
    (l.dropWhile p).dropWhile p = l.dropWhile p := by
  induction l with
  | nil => rfl
  | cons a t ih =>
      by_cases h : p a
      · rw [List.dropWhile_cons_of_pos h, ih]
      · rw [List.dropWhile_cons_of_neg h, List.dropWhile_cons_of_neg h]

theorem pyLstrip_append_spaces {w l : PyStr} (h : ∀ c ∈ w, isPySpace c) :
    pyLstrip (w ++ l) = pyLstrip l :=
  dropWhile_append_of_all h

theorem pyRstrip_append_spaces {w l : PyStr} (h : ∀ c ∈ w, isPySpace c) :
    pyRstrip (l ++ w) = pyRstrip l := by
  unfold pyRstrip
  rw [List.reverse_append, dropWhile_append_of_all fun c hc => h c (List.mem_reverse.mp hc)]

theorem pyLstrip_append (s t : PyStr) :
    pyLstrip (s ++ t) = if pyLstrip s = [] then pyLstrip t else pyLstrip s ++ t := by
  induction s with
  | nil => simp [pyLstrip]
  | cons a s' ih =>
      by_cases h : isPySpace a
      · rw [List.cons_append]
        unfold pyLstrip at *
        rw [List.dropWhile_cons_of_pos h, List.dropWhile_cons_of_pos h, ih]
      · unfold pyLstrip at *
        rw [List.cons_append, List.dropWhile_cons_of_neg (by simp [h]),
          List.dropWhile_cons_of_neg (by simp [h])]
        simp

theorem pyLstrip_head_not {s : PyStr} {c : Char} {cs : PyStr}
    (h : pyLstrip s = c :: cs) : isPySpace c = false := by
  induction s with
  | nil => simp [pyLstrip] at h
  | cons a t ih =>
      by_cases ha : isPySpace a
      · exact ih (by rwa [pyLstrip, List.dropWhile_cons_of_pos ha] at h)
      · rw [pyLstrip, List.dropWhile_cons_of_neg (by simp [ha])] at h
        cases h
        simpa using ha

theorem pyLstrip_cons_not {c : Char} {l : PyStr} (h : isPySpace c = false) :
    pyLstrip (c :: l) = c :: l := by
  rw [pyLstrip, List.dropWhile_cons_of_neg (by simp [h])]

theorem pyRstrip_concat_not {c : Char} {l : PyStr} (h : isPySpace c = false) :
    pyRstrip (l ++ [c]) = l ++ [c] := by
  rw [pyRstrip, List.reverse_append]
  simp only [List.reverse_cons, List.reverse_nil, List.nil_append, List.cons_append,
    List.nil_append]
  rw [List.dropWhile_cons_of_neg (by simp [h])]
  simp

theorem pyRstrip_all_spaces {l : PyStr} (h : ∀ c ∈ l, isPySpace c) :
    pyRstrip l = [] := by
  rw [pyRstrip, List.dropWhile_eq_nil_iff.mpr fun c hc => h c (List.mem_reverse.mp hc)]
  rfl

theorem pyRstrip_prefix_self (l : PyStr) : pyRstrip l <+: l := by
  have h := List.reverse_prefix.mpr (List.dropWhile_suffix (p := isPySpace) (l := l.reverse))
  rw [List.reverse_reverse] at h
  exact h

theorem pyRstrip_cons_head {c : Char} {l : PyStr}
    (h : pyRstrip (c :: l) ≠ []) : ∃ t, pyRstrip (c :: l) = c :: t := by
  obtain ⟨r, hr⟩ := pyRstrip_prefix_self (c :: l)
  cases hd : pyRstrip (c :: l) with
  | nil => exact absurd hd h
  | cons d ds =>
      rw [hd] at hr
      cases hr
      exact ⟨ds, rfl⟩

theorem pyLstrip_idem (s : PyStr) : pyLstrip (pyLstrip s) = pyLstrip s :=
  dropWhile_dropWhile _ _

theorem pyRstrip_idem (l : PyStr) : pyRstrip (pyRstrip l) = pyRstrip l := by
  unfold pyRstrip
  rw [List.reverse_reverse, dropWhile_dropWhile]

theorem pyLstrip_pyRstrip_lstripped (s : PyStr) :
    pyLstrip (pyRstrip (pyLstrip s)) = pyRstrip (pyLstrip s) := by
  cases h : pyLstrip s with
  | nil => simp [pyRstrip, pyLstrip]
  | cons c cs =>
      have hc : isPySpace c = false := pyLstrip_head_not h
      by_cases hr : pyRstrip (c :: cs) = []
      · simp [hr, pyLstrip]
      · obtain ⟨t, ht⟩ := pyRstrip_cons_head hr
        rw [ht, pyLstrip_cons_not hc]

theorem pyStrip_idem (s : PyStr) : pyStrip (pyStrip s) = pyStrip s := by
  unfold pyStrip
  rw [pyLstrip_pyRstrip_lstripped, pyRstrip_idem]

theorem pyStrip_append_spaces {w₁ w₂ : PyStr} (l : PyStr)
    (h₁ : ∀ c ∈ w₁, isPySpace c) (h₂ : ∀ c ∈ w₂, isPySpace c) :
    pyStrip (w₁ ++ l ++ w₂) = pyStrip l := by
  unfold pyStrip
  rw [List.append_assoc, pyLstrip_append_spaces h₁, pyLstrip_append]
  by_cases hl : pyLstrip l = []
  · rw [if_pos hl, hl]
    have : ∀ c ∈ pyLstrip w₂, isPySpace c := by
      intro c hc
      exact h₂ c (List.IsSuffix.subset (List.dropWhile_suffix _) hc)
    rw [pyRstrip_all_spaces this]
    rfl
  · rw [if_neg hl, pyRstrip_append_spaces h₂]

theorem cleanJsonString_pyStrip (raw : PyStr) :
    cleanJsonString (pyStrip raw) = cleanJsonString raw := by
  unfold cleanJsonString
  rw [pyStrip_idem]

theorem pyStrip_backtick_wrapped {a b : PyStr} (s : PyStr)
    (ha : ∃ t, a = '`' :: t) (hb : ∃ t, b = t ++ ['`']) :
    pyStrip (a ++ s ++ b) = a ++ s ++ b := by
  obtain ⟨ta, rfl⟩ := ha
  obtain ⟨tb, rfl⟩ := hb
  unfold pyStrip
  have h1 : ('`' :: ta) ++ s ++ (tb ++ ['`']) = '`' :: (ta ++ s ++ (tb ++ ['`'])) := by simp
  rw [h1, pyLstrip_cons_not (by decide)]
  have h2 : '`' :: (ta ++ s ++ (tb ++ ['`'])) = ('`' :: (ta ++ s ++ tb)) ++ ['`'] := by simp
  rw [h2, pyRstrip_concat_not (by decide)]

theorem pyStrip_after_leading_fence (s : PyStr) :
    pyStrip (s ++ "\n```".toList) =
      if pyLstrip s = [] then "```".toList else pyLstrip s ++ "\n```".toList := by
  by_cases hcase : pyLstrip s = []
  · rw [if_pos hcase]
    unfold pyStrip
    rw [pyLstrip_append, if_pos hcase]
    decide
  · rw [if_neg hcase]
    unfold pyStrip
    rw [pyLstrip_append, if_neg hcase]
    obtain ⟨c, cs, hcc⟩ : ∃ c cs, pyLstrip s = c :: cs := by
      cases h : pyLstrip s with
      | nil => exact absurd h hcase
      | cons c cs => exact ⟨c, cs, rfl⟩
    rw [hcc]
    have hsplit : (c :: cs) ++ "\n```".toList = ((c :: cs) ++ "\n``".toList) ++ ['`'] := by
      have : "\n```".toList = "\n``".toList ++ ['`'] := by decide
      rw [this, List.append_assoc]
    rw [hsplit, pyRstrip_concat_not (by decide), ← hsplit]

theorem pyStrip_body_newline {c : Char} {cs : PyStr} (hc : isPySpace c = false) :
    pyStrip ((c :: cs) ++ ['\n']) = pyRstrip (c :: cs) := by
  unfold pyStrip
  rw [List.cons_append, pyLstrip_cons_not hc, ← List.cons_append,
    pyRstrip_append_spaces (by decide)]

theorem cleanJsonString_json_fence (s : PyStr) :
    cleanJsonString ("```json\n".toList ++ s ++ "\n```".toList) = pyStrip s := by
  have hcat : "```json".toList ++ ['\n'] = "```json\n".toList := by decide
  have hstr : pyStrip ("```json\n".toList ++ s ++ "\n```".toList)
      = "```json\n".toList ++ s ++ "\n```".toList :=
    pyStrip_backtick_wrapped s ⟨"``json\n".toList, by decide⟩ ⟨"\n``".toList, by decide⟩
  have hshape : "```json\n".toList ++ s ++ "\n```".toList
      = "```json".toList ++ (['\n'] ++ (s ++ "\n```".toList)) := by
    rw [← hcat]
    simp
  have hpre : "```json".toList.isPrefixOf
      ("```json\n".toList ++ s ++ "\n```".toList) = true := by
    rw [ List.isPrefixOf_iff_prefix, hshape]
    exact List.prefix_append _ _
  have hdrop : ("```json\n".toList ++ s ++ "\n```".toList).drop 7
      = ['\n'] ++ (s ++ "\n```".toList) := by
    rw [hshape]
    exact List.drop_left' (by decide)
  unfold cleanJsonString
  dsimp only
  rw [hstr, if_pos hpre, hdrop]
  have hsp : pyStrip (['\n'] ++ (s ++ "\n```".toList)) = pyStrip (s ++ "\n```".toList) := by
    unfold pyStrip
    rw [pyLstrip_append_spaces (by decide)]
  rw [hsp, pyStrip_after_leading_fence]
  by_cases hcase : pyLstrip s = []
  · rw [if_pos hcase]
    have hrhs : pyStrip s = [] := by
      unfold pyStrip
      rw [hcase]
      rfl
    rw [hrhs, if_pos (by decide)]
    decide
  · rw [if_neg hcase]
    obtain ⟨c, cs, hcc⟩ : ∃ c cs, pyLstrip s = c :: cs := by
      cases h : pyLstrip s with
      | nil => exact absurd h hcase
      | cons c cs => exact ⟨c, cs, rfl⟩
    have hc : isPySpace c = false := pyLstrip_head_not hcc
    rw [hcc]
    have hsplit3 : (c :: cs) ++ "\n```".toList = ((c :: cs) ++ ['\n']) ++ "```".toList := by
      have : "\n```".toList = ['\n'] ++ "```".toList := by decide
      rw [this, List.append_assoc]
    have hsuf : "```".toList.isSuffixOf ((c :: cs) ++ "\n```".toList) = true := by
      rw [List.isSuffixOf_iff_suffix, hsplit3]
      exact List.suffix_append _ _
    rw [if_pos hsuf, hsplit3]
    have hlen : ((c :: cs) ++ ['\n']).length
        = (((c :: cs) ++ ['\n']) ++ "```".toList).length - 3 := by
      simp
    rw [List.take_left' hlen, pyStrip_body_newline hc]
    unfold pyStrip
    rw [hcc]

theorem cleanJsonString_bare_fence (s : PyStr) :
    cleanJsonString ("```\n".toList ++ s ++ "\n```".toList) = pyStrip s := by
  have hcat : "```".toList ++ ['\n'] = "```\n".toList := by decide
  have hstr : pyStrip ("```\n".toList ++ s ++ "\n```".toList)
      = "```\n".toList ++ s ++ "\n```".toList :=
    pyStrip_backtick_wrapped s ⟨"``\n".toList, by decide⟩ ⟨"\n``".toList, by decide⟩
  have hshape : "```\n".toList ++ s ++ "\n```".toList
      = "```".toList ++ (['\n'] ++ (s ++ "\n```".toList)) := by
    rw [← hcat]
    simp
  have hnotjson : "```json".toList.isPrefixOf
      ("```\n".toList ++ s ++ "\n```".toList) = false := by
    have e1 : "```\n".toList ++ s ++ "\n```".toList
        = '`' :: '`' :: '`' :: '\n' :: (s ++ "\n```".toList) := by
      have : "```\n".toList = '`' :: '`' :: '`' :: ['\n'] := by decide
      rw [this]
      simp
    have e2 : "```json".toList = '`' :: '`' :: '`' :: 'j' :: "son".toList := by decide
    rw [e1, e2]
    simp [List.isPrefixOf]
  have hpre : "```".toList.isPrefixOf
      ("```\n".toList ++ s ++ "\n```".toList) = true := by
    rw [ List.isPrefixOf_iff_prefix, hshape]
    exact List.prefix_append _ _
  have hdrop : ("```\n".toList ++ s ++ "\n```".toList).drop 3
      = ['\n'] ++ (s ++ "\n```".toList) := by
    rw [hshape]
    exact List.drop_left' (by decide)
  unfold cleanJsonString
  dsimp only
  rw [hstr]
  have hnot' : ¬ ("```json".toList.isPrefixOf ("```\n".toList ++ s ++ "\n```".toList) = true) := by
    simp [hnotjson]
  rw [if_neg hnot', if_pos hpre, hdrop]
  have hsp : pyStrip (['\n'] ++ (s ++ "\n```".toList)) = pyStrip (s ++ "\n```".toList) := by
    unfold pyStrip
    rw [pyLstrip_append_spaces (by decide)]
  rw [hsp, pyStrip_after_leading_fence]
  by_cases hcase : pyLstrip s = []
  · rw [if_pos hcase]
    have hrhs : pyStrip s = [] := by
      unfold pyStrip
      rw [hcase]
      rfl
    rw [hrhs, if_pos (by decide)]
    decide
  · rw [if_neg hcase]
    obtain ⟨c, cs, hcc⟩ : ∃ c cs, pyLstrip s = c :: cs := by
      cases h : pyLstrip s with
      | nil => exact absurd h hcase
      | cons c cs => exact ⟨c, cs, rfl⟩
    have hc : isPySpace c = false := pyLstrip_head_not hcc
    rw [hcc]
    have hsplit3 : (c :: cs) ++ "\n```".toList = ((c :: cs) ++ ['\n']) ++ "```".toList := by
      have : "\n```".toList = ['\n'] ++ "```".toList := by decide
      rw [this, List.append_assoc]
    have hsuf : "```".toList.isSuffixOf ((c :: cs) ++ "\n```".toList) = true := by
      rw [List.isSuffixOf_iff_suffix, hsplit3]
      exact List.suffix_append _ _
    rw [if_pos hsuf, hsplit3]
    have hlen : ((c :: cs) ++ ['\n']).length
        = (((c :: cs) ++ ['\n']) ++ "```".toList).length - 3 := by
      simp
    rw [List.take_left' hlen, pyStrip_body_newline hc]
    unfold pyStrip
    rw [hcc]

/-! ## Claim C5: fence-stripping is transparent with respect to parsing -/

/-- C5: for every string `s`, if the model completion is `s` wrapped in a
leading ```` ```json ```` (or bare ```` ``` ````) fence and a trailing
```` ``` ```` fence, with optional surrounding whitespace, then the
`ai_structured_output` produced by `process_content` equals the result of
parsing `s` directly with `json.loads` (whose result is unchanged by
whitespace-stripping, as Python's JSON parser skips surrounding whitespace):
fence-stripping is transparent with respect to parsing. -/
theorem fence_stripping_transparent (cfg : Config) (docId : Nat)
    (jsonLoads : PyStr → ParseOutcome)
    (hload : ∀ t, jsonLoads (pyStrip t) = jsonLoads t)
    (s w₁ w₂ : PyStr) (hw₁ : ∀ c ∈ w₁, isPySpace c) (hw₂ : ∀ c ∈ w₂, isPySpace c) :
    (processContent cfg docId
        (.completes (w₁ ++ ("```json\n".toList ++ s ++ "\n```".toList) ++ w₂))
        jsonLoads).ai_structured_output = structuredOutputOf (jsonLoads s) ∧
    (processContent cfg docId
        (.completes (w₁ ++ ("```\n".toList ++ s ++ "\n```".toList) ++ w₂))
        jsonLoads).ai_structured_output = structuredOutputOf (jsonLoads s) := by
  have key : ∀ X : PyStr, cleanJsonString X = pyStrip s →
      (processContent cfg docId (.completes (w₁ ++ X ++ w₂)) jsonLoads).ai_structured_output
        = structuredOutputOf (jsonLoads s) := by
    intro X hX
    unfold processContent
    dsimp only
    rw [pyStrip_append_spaces X hw₁ hw₂, cleanJsonString_pyStrip, hX, hload]
    cases jsonLoads s <;> rfl
  exact ⟨key _ (cleanJsonString_json_fence s), key _ (cleanJsonString_bare_fence s)⟩

/-- Witness for C5: the completion ``` ```json\nnull\n``` ``` (with
surrounding whitespace) parses to JSON `null`, exactly as parsing `null`
directly would. -/
theorem fence_stripping_transparent_witness :
    (processContent sampleCfg 0
        (.completes ([' '] ++ ("```json\n".toList ++ "null".toList ++ "\n```".toList) ++ ['\n']))
        sampleLoads).ai_structured_output = structuredOutputOf (sampleLoads "null".toList) ∧
    (processContent sampleCfg 0
        (.completes ([' '] ++ ("```\n".toList ++ "null".toList ++ "\n```".toList) ++ ['\n']))
        sampleLoads).ai_structured_output = structuredOutputOf (sampleLoads "null".toList) ∧
    structuredOutputOf (sampleLoads "null".toList) = some .null := by
  have h := fence_stripping_transparent sampleCfg 0 sampleLoads
    (fun t => by unfold sampleLoads; rw [pyStrip_idem])
    "null".toList [' '] ['\n'] (by decide) (by decide)
  exact ⟨h.1, h.2, rfl⟩

/-! ## Claim C6: non-JSON completions yield a diagnosable error -/

/-- C6: for every model completion whose cleaned text fails JSON parsing
with a decode error, `process_content` returns `status=error`, no structured
output, and an error message that embeds the parse error and the first 100
characters of the offending cleaned text. -/
theorem nonjson_completion_error (cfg : Config) (docId : Nat)
    (jsonLoads : PyStr → ParseOutcome) (content e : PyStr)
    (h : jsonLoads (cleanJsonString (pyStrip content)) = .decodeError e) :
    (processContent cfg docId (.completes content) jsonLoads).status = "error".toList ∧
    (processContent cfg docId (.completes content) jsonLoads).ai_structured_output = none ∧
    (processContent cfg docId (.completes content) jsonLoads).error_message =
      some ("AI model response was not valid JSON. Parse Error: ".toList
        ++ e ++ ". Raw (cleaned) start: '".toList
        ++ (cleanJsonString (pyStrip content)).take 100 ++ "...'".toList) := by
  unfold processContent
  dsimp only
  rw [h]
  exact ⟨rfl, rfl, rfl⟩

/-- Witness for C6: the non-JSON completion `hello` produces the error
response with the decode error and the prefix `hello` embedded in the
message. -/
theorem nonjson_completion_error_witness :
    (processContent sampleCfg 0 (.completes "hello".toList) sampleLoads).status
      = "error".toList ∧
    (processContent sampleCfg 0 (.completes "hello".toList) sampleLoads).ai_structured_output
      = none ∧
    (processContent sampleCfg 0 (.completes "hello".toList) sampleLoads).error_message
      = some ("AI model response was not valid JSON. Parse Error: Expecting value: line 1 column 1 (char 0). Raw (cleaned) start: 'hello...'".toList) := by
  have h := nonjson_completion_error sampleCfg 0 sampleLoads "hello".toList
    "Expecting value: line 1 column 1 (char 0)".toList rfl
  exact ⟨h.1, h.2.1, by rw [h.2.2]; rfl⟩

/-! ## Claim C1: the handler always returns the uniform response shape -/

/-- C1: for every upload request reaching the handler — that is, for every
environment of external-call outcomes, covering all failure classes (invalid
input, storage error, not-found, extraction error, AI unavailable, AI
invocation error, AI output invalid) — `upload_document_and_process` returns
a well-formed response whose status is `success` or `error`, and the status
is `success` exactly on the environments where the pipeline runs to a
successful terminal state; every failure class yields `status=error` through
a normally returned response, never a propagated exception (the model is a
total function over all outcome environments). -/
theorem handler_uniform_response (cfg : Config) (env : UploadEnv) :
    ((uploadDocumentAndProcess cfg env).response.status = "success".toList ∨
     (uploadDocumentAndProcess cfg env).response.status = "error".toList) ∧
    ((uploadDocumentAndProcess cfg env).response.status = "success".toList ↔
      ReachesSuccess cfg env) := by
  obtain ⟨fn, ro, so, tid, st, pu, ex, ai, ac, llm, jl⟩ := env
  unfold uploadDocumentAndProcess errResp processContent ReachesSuccess
  dsimp only
  repeat' split
  all_goals
    first
      | (refine ⟨Or.inl rfl, ?_⟩
         simp_all [show ("success".toList = "success".toList) ↔ True from by decide])
      | (refine ⟨Or.inr rfl, ?_⟩
         simp_all [show ("error".toList = "success".toList) ↔ False from by decide])

/-! ## Claim C7: `model_used` always carries the configured model -/

/-- C7: for every terminal outcome of the pipeline — success, partial
success, and every failure class at every stage — the returned response's
`model_used` field equals the configured model identifier. -/
theorem model_used_invariant (cfg : Config) (env : UploadEnv) :
    (uploadDocumentAndProcess cfg env).response.model_used = cfg.aiModelName := by
  unfold uploadDocumentAndProcess errResp processContent
  dsimp only
  repeat' split
  all_goals rfl

/-! ## Claim C2: invalid extension or oversize payload never reaches storage -/

/-- C2: an upload whose filename extension is not in the allowed set
(case-insensitive suffix match) or whose payload length exceeds the
configured maximum yields `status=error`, and the storage adapter's store
operation is never called. -/
theorem invalid_or_oversize_no_store (cfg : Config) (env : UploadEnv)
    (h : (∃ f, env.filename = some f ∧ f ≠ [] ∧
            ∀ ext ∈ cfg.allowedExtensions, ('.' :: ext).isSuffixOf (pyLower f) = false) ∨
         (∃ n, env.readOutcome = .ok n ∧ n > cfg.maxUploadSize)) :
    (uploadDocumentAndProcess cfg env).response.status = "error".toList ∧
    (uploadDocumentAndProcess cfg env).storeCalled = false := by
  unfold uploadDocumentAndProcess errResp
  dsimp only
  rcases h with ⟨f, hf, hne, hext⟩ | ⟨n, hn, hgt⟩
  · have hfa : filenameAllowed cfg.allowedExtensions env.filename = false := by
      rw [hf]
      simp only [filenameAllowed, Bool.and_eq_false_iff]
      right
      rw [List.any_eq_false]
      intro ext hx
      simp [hext ext hx]
    rw [hfa]
    exact ⟨rfl, rfl⟩
  · by_cases hfa : filenameAllowed cfg.allowedExtensions env.filename = true
    · rw [hfa, hn]
      simp [hgt]
    · have hfa' : filenameAllowed cfg.allowedExtensions env.filename = false := by
        simpa using hfa
      rw [hfa']
      exact ⟨rfl, rfl⟩

/-- Witness for C2: a `.txt` upload and an oversize upload each yield
`status=error` without a storage call. -/
theorem invalid_or_oversize_no_store_witness :
    ((uploadDocumentAndProcess sampleCfg invalidExtEnv).response.status = "error".toList ∧
     (uploadDocumentAndProcess sampleCfg invalidExtEnv).storeCalled = false) ∧
    ((uploadDocumentAndProcess sampleCfg oversizeEnv).response.status = "error".toList ∧
     (uploadDocumentAndProcess sampleCfg oversizeEnv).storeCalled = false) :=
  ⟨invalid_or_oversize_no_store sampleCfg invalidExtEnv
      (Or.inl ⟨"doc.txt".toList, rfl, by decide, by decide⟩),
    invalid_or_oversize_no_store sampleCfg oversizeEnv
      (Or.inr ⟨sampleCfg.maxUploadSize + 1, rfl, by decide⟩)⟩

/-! ## Claim C10: missing or empty filename is rejected as an invalid type -/

/-- C10: an upload whose filename is missing or empty is rejected through
the same branch as a disallowed extension: `status=error`, the
invalid-file-type message, and no storage call. -/
theorem missing_filename_invalid_type (cfg : Config) (env : UploadEnv)
    (h : env.filename = none ∨ env.filename = some []) :
    (uploadDocumentAndProcess cfg env).response.status = "error".toList ∧
    (uploadDocumentAndProcess cfg env).response.error_message =
      some ("Invalid file type. Only ".toList
        ++ List.intercalate ", ".toList cfg.allowedExtensions
        ++ " files are allowed.".toList) ∧
    (uploadDocumentAndProcess cfg env).storeCalled = false := by
  have hfa : filenameAllowed cfg.allowedExtensions env.filename = false := by
    rcases h with h | h <;> rw [h] <;> simp [filenameAllowed]
  unfold uploadDocumentAndProcess errResp
  dsimp only
  rw [hfa]
  exact ⟨rfl, rfl, rfl⟩

/-- Witness for C10: an upload with no filename at all is rejected with the
invalid-file-type message and no storage call. -/
theorem missing_filename_invalid_type_witness :
    (uploadDocumentAndProcess sampleCfg noFilenameEnv).response.status = "error".toList ∧
    (uploadDocumentAndProcess sampleCfg noFilenameEnv).response.error_message =
      some ("Invalid file type. Only ".toList
        ++ List.intercalate ", ".toList sampleCfg.allowedExtensions
        ++ " files are allowed.".toList) ∧
    (uploadDocumentAndProcess sampleCfg noFilenameEnv).storeCalled = false :=
  missing_filename_invalid_type sampleCfg noFilenameEnv (Or.inl rfl)

/-! ## Claim C3: empty extraction is success and skips the AI stage -/

/-- C3: a successfully fetched, parseable document none of whose pages
contributes extractable text makes `extract_text_from_pdf` return the empty
string (not an error), and the pipeline on an empty extraction result
returns `status=success` with the fixed informational payload, without
invoking the AI backend. -/
theorem empty_extraction_success
    (bucket objectName : PyStr) (pdfData : List Nat) (enc : EncryptionCheck)
    (pages : List (Except PyStr PyStr))
    (hbytes : pdfData ≠ []) (henc : enc = .notEncrypted ∨ enc = .decryptsOk)
    (hpages : pageContributions pages = [])
    (cfg : Config) (env : UploadEnv)
    (hex : env.extractOutcome = .ok [])
    (hfn : filenameAllowed cfg.allowedExtensions env.filename = true)
    (hro : ∃ n, env.readOutcome = .ok n ∧ ¬n > cfg.maxUploadSize)
    (hseek : env.seekOutcome = none)
    (hst : ∃ loc, env.storeOutcome = .stored loc ∧ loc ≠ [] ∧ basename loc ≠ []) :
    (extractTextFromPdf bucket objectName ⟨.got (.ok pdfData), .parsed enc pages⟩).result
      = .ok [] ∧
    (uploadDocumentAndProcess cfg env).response.status = "success".toList ∧
    (uploadDocumentAndProcess cfg env).response.ai_structured_output =
      some (.obj [("message".toList,
        .str "No text content could be extracted from the PDF.".toList)]) ∧
    (uploadDocumentAndProcess cfg env).response.error_message =
      some "PDF contained no extractable text content.".toList ∧
    (uploadDocumentAndProcess cfg env).aiInvoked = false := by
  constructor
  · rcases henc with rfl | rfl <;> simp [extractTextFromPdf, hbytes, hpages]
  · obtain ⟨n, hn, hgt⟩ := hro
    obtain ⟨loc, hl, hlne, hbne⟩ := hst
    unfold uploadDocumentAndProcess errResp
    dsimp only
    rw [hfn, hn, hseek, hl, hex]
    simp [hgt, hlne, hbne]

/-- Witness for C3: a one-page document whose only page fails extraction
yields the empty string, and the pipeline on an empty extraction returns the
fixed informational success payload without invoking the AI. -/
theorem empty_extraction_success_witness :
    (extractTextFromPdf "pdfs".toList "x.pdf".toList
        ⟨.got (.ok [1]), .parsed .notEncrypted [.error "boom".toList]⟩).result = .ok [] ∧
    (uploadDocumentAndProcess sampleCfg emptyTextEnv).response.status = "success".toList ∧
    (uploadDocumentAndProcess sampleCfg emptyTextEnv).response.ai_structured_output =
      some (.obj [("message".toList,
        .str "No text content could be extracted from the PDF.".toList)]) ∧
    (uploadDocumentAndProcess sampleCfg emptyTextEnv).response.error_message =
      some "PDF contained no extractable text content.".toList ∧
    (uploadDocumentAndProcess sampleCfg emptyTextEnv).aiInvoked = false :=
  empty_extraction_success "pdfs".toList "x.pdf".toList [1] .notEncrypted
    [.error "boom".toList] (by decide) (Or.inl rfl) rfl sampleCfg emptyTextEnv rfl
    (by decide) ⟨3, rfl, by decide⟩ rfl ⟨"pdfs/f.pdf".toList, rfl, by decide, by decide⟩

/-! ## Claim C4: the page join (corrected: page texts are stripped) -/

theorem pageContributions_eq (pages : List (Except PyStr PyStr)) :
    pageContributions pages =
      ((pages.filterMap Except.toOption).filter (fun t => !t.isEmpty)).map pyStrip := by
  induction pages with
  | nil => rfl
  | cons p ps ih =>
      cases p with
      | error e => simpa [pageContributions, List.filterMap_cons, Except.toOption] using ih
      | ok t =>
          by_cases ht : t = []
          · subst ht
            simpa [pageContributions, List.filterMap_cons, Except.toOption] using ih
          · simp only [pageContributions, List.filterMap_cons, Except.toOption] at ih ⊢
            simp [ht, ih, List.isEmpty_iff]

/-- C4 (amended): for every fetched, parseable, unencrypted document,
extraction iterates the pages in order, a failing page is skipped
(contributing nothing) without aborting the remaining pages, and the result
is the blank-line join, in page order, of the **stripped** texts of the
pages whose extracted raw text is non-empty.  (The claim as literally
stated — the join of the non-empty page texts themselves — fails because
the implementation strips each contributing page text; see the
counterexample.) -/
theorem page_join_stripped (bucket objectName : PyStr) (pdfData : List Nat)
    (enc : EncryptionCheck) (pages : List (Except PyStr PyStr))
    (hbytes : pdfData ≠ []) (henc : enc = .notEncrypted ∨ enc = .decryptsOk) :
    (extractTextFromPdf bucket objectName ⟨.got (.ok pdfData), .parsed enc pages⟩).result
      = .ok (List.intercalate "\n\n".toList
          (((pages.filterMap Except.toOption).filter (fun t => !t.isEmpty)).map pyStrip)) := by
  have main : ∀ e', (e' = EncryptionCheck.notEncrypted ∨ e' = .decryptsOk) → e' = enc →
      (extractTextFromPdf bucket objectName ⟨.got (.ok pdfData), .parsed enc pages⟩).result
        = .ok (List.intercalate "\n\n".toList
            (((pages.filterMap Except.toOption).filter (fun t => !t.isEmpty)).map pyStrip)) := by
    intro e' he' heq
    subst heq
    rcases he' with rfl | rfl <;>
    · unfold extractTextFromPdf
      dsimp only
      rw [if_neg hbytes]
      by_cases h : pageContributions pages = []
      · rw [if_pos h, ← pageContributions_eq, h]
        rfl
      · rw [if_neg h, ← pageContributions_eq]
  exact main enc henc rfl

/-- Counterexample to C4 as stated: a single page whose extracted text is
`"a "` is non-empty, so the claimed join is `"a "`; the implementation
strips the page text and returns `"a"`. -/
theorem page_join_unstripped_counterexample :
    (extractTextFromPdf "pdfs".toList "x.pdf".toList
        ⟨.got (.ok [1]), .parsed .notEncrypted [.ok "a ".toList]⟩).result
      = .ok "a".toList ∧
    specNonEmptyJoin [.ok "a ".toList] = "a ".toList ∧
    ("a".toList : PyStr) ≠ "a ".toList :=
  ⟨rfl, by decide, by decide⟩

/-- Witness for C4 (amended): three pages — `" a "`, a failing page, `"b"` —
produce `"a\n\nb"`: the failure is skipped, the texts are stripped and
joined with a blank line. -/
theorem page_join_stripped_witness :
    (extractTextFromPdf "pdfs".toList "x.pdf".toList
        ⟨.got (.ok [1]), .parsed .notEncrypted
          [.ok " a ".toList, .error "e".toList, .ok "b".toList]⟩).result
      = .ok (List.intercalate "\n\n".toList
          ((([.ok " a ".toList, .error "e".toList,
              .ok "b".toList].filterMap Except.toOption).filter
            (fun t => !t.isEmpty)).map pyStrip)) ∧
    List.intercalate "\n\n".toList
        ((([.ok " a ".toList, .error "e".toList,
            .ok "b".toList].filterMap (Except.toOption (ε := PyStr))).filter
          (fun t => !t.isEmpty)).map pyStrip) = "a\n\nb".toList :=
  ⟨page_join_stripped "pdfs".toList "x.pdf".toList [1] .notEncrypted
      [.ok " a ".toList, .error "e".toList, .ok "b".toList] (by decide) (Or.inl rfl),
    by decide⟩

/-! ## Claim C8: fetch failure modes are distinguished -/

/-- C8: the three storage-fetch failure modes of the extraction step are
distinct conditions: an absent object (`S3Error` with code `NoSuchKey`)
raises the not-found error; a transport/connection failure
(`MinioException`) raises an HTTP 503 service-unavailable error; any other
storage error (another `S3Error` code, or an unexpected exception) raises a
generic HTTP 500 storage error — and not-found, 503 and 500 reach the
orchestrator as pairwise different conditions. -/
theorem fetch_failure_modes_distinct (bucket objectName code msg other : PyStr)
    (p : PdfParseOutcome) (hcode : code ≠ "NoSuchKey".toList) :
    (extractTextFromPdf bucket objectName ⟨.s3Error "NoSuchKey".toList, p⟩).result
      = .error (.notFound ("PDF object '".toList ++ objectName
          ++ "' not found in bucket '".toList ++ bucket ++ "'.".toList)) ∧
    (extractTextFromPdf bucket objectName ⟨.minioError msg, p⟩).result
      = .error (.httpError 503 ("Storage service connection error: ".toList ++ msg)) ∧
    (extractTextFromPdf bucket objectName ⟨.s3Error code, p⟩).result
      = .error (.httpError 500 ("Storage error retrieving PDF: ".toList ++ code)) ∧
    (extractTextFromPdf bucket objectName ⟨.raises other, p⟩).result
      = .error (.httpError 500 "Unexpected error retrieving PDF file.".toList) ∧
    (∀ a n d, ExtractErr.notFound a ≠ .httpError n d) ∧
    (503 : Nat) ≠ 500 := by
  refine ⟨?_, rfl, ?_, rfl, ?_, by decide⟩
  · unfold extractTextFromPdf
    dsimp only
    rw [if_pos rfl]
  · unfold extractTextFromPdf
    dsimp only
    rw [if_neg hcode]
  · intro a n d h
    cases h

/-- Witness for C8: the code `AccessDenied` is not `NoSuchKey`, and the
three failure environments produce the three distinct error conditions. -/
theorem fetch_failure_modes_distinct_witness :
    (extractTextFromPdf "pdfs".toList "x.pdf".toList
        ⟨.s3Error "NoSuchKey".toList, .readError "r".toList⟩).result
      = .error (.notFound ("PDF object '".toList ++ "x.pdf".toList
          ++ "' not found in bucket '".toList ++ "pdfs".toList ++ "'.".toList)) ∧
    (extractTextFromPdf "pdfs".toList "x.pdf".toList
        ⟨.minioError "conn".toList, .readError "r".toList⟩).result
      = .error (.httpError 503 ("Storage service connection error: ".toList
          ++ "conn".toList)) ∧
    (extractTextFromPdf "pdfs".toList "x.pdf".toList
        ⟨.s3Error "AccessDenied".toList, .readError "r".toList⟩).result
      = .error (.httpError 500 ("Storage error retrieving PDF: ".toList
          ++ "AccessDenied".toList)) ∧
    (extractTextFromPdf "pdfs".toList "x.pdf".toList
        ⟨.raises "boom".toList, .readError "r".toList⟩).result
      = .error (.httpError 500 "Unexpected error retrieving PDF file.".toList) ∧
    ExtractErr.notFound "a".toList ≠ .httpError 503 "d".toList ∧
    (503 : Nat) ≠ 500 := by
  have h := fetch_failure_modes_distinct "pdfs".toList "x.pdf".toList
    "AccessDenied".toList "conn".toList "boom".toList (.readError "r".toList) (by decide)
  exact ⟨h.1, h.2.1, h.2.2.1, h.2.2.2.1, h.2.2.2.2.1 _ _ _, h.2.2.2.2.2⟩

/-! ## Claim C9: the storage handle is released on every exit path -/

/-- C9: for every execution of the extraction step's fetch, if a storage
object handle was acquired (`get_object` returned), it is closed and its
connection released on every exit path — success, not-found, and every
other error — before the step completes (the `finally` block). -/
theorem handle_released_on_exit (bucket objectName : PyStr) (env : ExtractEnv)
    (h : (extractTextFromPdf bucket objectName env).handleAcquired = true) :
    (extractTextFromPdf bucket objectName env).handleReleased = true := by
  obtain ⟨f, p⟩ := env
  cases f with
  | got r =>
      cases r with
      | error e => rfl
      | ok pdfData =>
          unfold extractTextFromPdf
          dsimp only
          repeat' split
          all_goals rfl
  | s3Error code =>
      unfold extractTextFromPdf at h
      dsimp only at h
      split at h
      all_goals exact Bool.noConfusion h
  | minioError m => exact Bool.noConfusion h
  | raises m => exact Bool.noConfusion h

/-- Witness for C9: a fetch that acquires a handle and then fails parsing
still releases the handle. -/
theorem handle_released_on_exit_witness :
    (extractTextFromPdf "pdfs".toList "x.pdf".toList
        ⟨.got (.ok [1]), .readError "bad".toList⟩).handleAcquired = true ∧
    (extractTextFromPdf "pdfs".toList "x.pdf".toList
        ⟨.got (.ok [1]), .readError "bad".toList⟩).handleReleased = true :=
  ⟨rfl, handle_released_on_exit "pdfs".toList "x.pdf".toList
    ⟨.got (.ok [1]), .readError "bad".toList⟩ rfl⟩

end Pipeline
